import Mathlib

/-!
Shallow embedding of the swarmkit restart supervisor
(`manager/orchestrator/restart.go`) and proofs about it.

Times are modelled as `Int` (nanoseconds since some epoch), durations as
`Nat` (the spec constrains `delay ≥ 0`, `window ≥ 0`).  Go maps are
modelled as association lists with explicit lookup/insert functions.
The `container/list` doubly-linked list of `restartedInstance` records is
modelled as `Option (List Int)` of timestamps, `Option.none` standing for
the nil `*list.List` pointer.
-/

namespace RestartSup

/-- Task states.  Modelled from the spec: the api package is not among the
provided sources; the spec gives the ordered enum
NEW < ALLOCATED < ASSIGNED < READY < RUNNING < SHUTDOWN < …, with the
terminal-state reasons COMPLETED and FAILED among the post-RUNNING states. -/
inductive TaskState where
  | new
  | allocated
  | assigned
  | ready
  | running
  | completed
  | shutdown
  | failed
deriving DecidableEq

/-- Numeric rank of a task state, giving the spec's enum order. -/
def TaskState.toNat : TaskState → Nat
  | .new => 0
  | .allocated => 1
  | .assigned => 2
  | .ready => 3
  | .running => 4
  | .completed => 5
  | .shutdown => 6
  | .failed => 7

/-- Strict order on task states (`a < b` in the enum order). -/
def tsLt (a b : TaskState) : Prop := a.toNat < b.toNat

instance (a b : TaskState) : Decidable (tsLt a b) := by
  unfold tsLt; infer_instance

/-- Restart conditions: RestartOnAny, RestartOnFailure, RestartOnNone. -/
inductive RestartCondition where
  | onAny
  | onFailure
  | onNone
deriving DecidableEq

/-- The service's restart policy (api.RestartPolicy). `delay` and `window`
are durations in nanoseconds, `maxAttempts` a u64 counter. -/
structure RestartPolicy where
  condition : RestartCondition
  delay : Nat
  maxAttempts : Nat
  window : Nat
deriving DecidableEq

/-- Service mode.  Modelled from the spec: mode is one of REPLICATED or
GLOBAL; `other` stands for any future mode unknown to the supervisor. -/
inductive ServiceMode where
  | replicated
  | globalMode
  | other
deriving DecidableEq

structure Service where
  id : String
  mode : ServiceMode
  restart : Option RestartPolicy
deriving DecidableEq

structure Task where
  id : String
  serviceID : String
  instanceOrd : Nat
  nodeID : String
  desiredState : TaskState
  statusState : TaskState
  terminalState : TaskState
deriving DecidableEq

inductive NodeAvailability where
  | active
  | pause
  | drain
deriving DecidableEq

inductive NodeState where
  | unknown
  | down
  | ready
deriving DecidableEq

structure Node where
  id : String
  availability : NodeAvailability
  statusState : NodeState
deriving DecidableEq

/-- Modelled from the spec: `isReplicatedService` is defined outside the
provided sources; per the data model a service's mode is REPLICATED or
GLOBAL, and the helper tests for the former. -/
def isReplicatedService (service : Service) : Bool :=
  service.mode = ServiceMode.replicated

/-- Modelled from the spec: `isGlobalService` is defined outside the
provided sources; it tests whether the service's mode is GLOBAL. -/
def isGlobalService (service : Service) : Bool :=
  service.mode = ServiceMode.globalMode

/-- Modelled from the spec: `restartCondition` is defined outside the
provided sources.  The restart policy is optional and carries
`condition ∈ \x7bANY, ON_FAILURE, NONE\x7d`; a service without a policy
defaults to restart-on-any (the spec's step "if `max_attempts == 0`,
allow" must be reachable for policy-less services). -/
def restartCondition (service : Service) : RestartCondition :=
  match service.restart with
  | some p => p.condition
  | Option.none => RestartCondition.onAny

/-- Modelled from the spec: `newTask` is defined outside the provided
sources.  It clones a task by template from the service spec, carrying the
given instance ordinal and no node assignment; the fresh task id is drawn
from an external generator and passed in here. -/
def newTask (service : Service) (instanceOrd : Nat) (freshID : String) : Task :=
  { id := freshID
    serviceID := service.id
    instanceOrd := instanceOrd
    nodeID := ""
    desiredState := TaskState.new
    statusState := TaskState.new
    terminalState := TaskState.new }

/-- The internal ledger key (`instanceTuple` in restart.go). -/
structure InstanceTuple where
  instanceOrd : Nat
  serviceID : String
  nodeID : String
deriving DecidableEq

/-- `instanceRestartInfo`: restart counter plus the linked list of restart
timestamps (`Option.none` models the nil `*list.List`). -/
structure InstanceRestartInfo where
  totalRestarts : Nat
  restartedInstances : Option (List Int)
deriving DecidableEq

/-- Lookup into the `history` map. -/
def hLookup (k : InstanceTuple) :
    List (InstanceTuple × InstanceRestartInfo) → Option InstanceRestartInfo
  | [] => Option.none
  | (k', v) :: rest => if k' = k then some v else hLookup k rest

/-- Map update for `history` (replace the binding or append a new one). -/
def hInsert (k : InstanceTuple) (v : InstanceRestartInfo) :
    List (InstanceTuple × InstanceRestartInfo) →
      List (InstanceTuple × InstanceRestartInfo)
  | [] => [(k, v)]
  | (k', v') :: rest =>
      if k' = k then (k, v) :: rest else (k', v') :: hInsert k v rest

/-- Membership-preserving add into a by-service tuple set. -/
def tupleSetAdd (tu : InstanceTuple) (s : List InstanceTuple) :
    List InstanceTuple :=
  if tu ∈ s then s else s ++ [tu]

/-- Lookup into the `historyByService` index. -/
def sLookup (k : String) :
    List (String × List InstanceTuple) → Option (List InstanceTuple)
  | [] => Option.none
  | (k', v) :: rest => if k' = k then some v else sLookup k rest

/-- Update of the `historyByService` index: lazily create the tuple set for
the service id and add the tuple to it. -/
def sIndexInsert (sid : String) (tu : InstanceTuple) :
    List (String × List InstanceTuple) → List (String × List InstanceTuple)
  | [] => [(sid, [tu])]
  | (k', v) :: rest =>
      if k' = sid then (sid, tupleSetAdd tu v) :: rest
      else (k', v) :: sIndexInsert sid tu rest

/-- The supervisor's ledger: the per-tuple restart history and the
by-service secondary index (fields `history` and `historyByService` of
`RestartSupervisor`). -/
structure Ledger where
  history : List (InstanceTuple × InstanceRestartInfo)
  historyByService : List (String × List InstanceTuple)
deriving DecidableEq

/-- Total restarts recorded in a ledger for a tuple (0 when absent). -/
def totalRestartsOf (led : Ledger) (tu : InstanceTuple) : Nat :=
  match hLookup tu led.history with
  | some info => info.totalRestarts
  | Option.none => 0

/-- Window events recorded in a ledger for a tuple, the nil list and the
absent entry both reading as the empty sequence. -/
def windowEvents (led : Ledger) (tu : InstanceTuple) : List Int :=
  match hLookup tu led.history with
  | some info =>
      match info.restartedInstances with
      | some evs => evs
      | Option.none => []
  | Option.none => []

/-- The instance tuple `shouldRestart` indexes the ledger by: instance and
service id of the task, with the node id filled in only for global
services (restart.go lines 123-132). -/
def shouldRestartTuple (t : Task) (service : Service) : InstanceTuple :=
  { instanceOrd := t.instanceOrd
    serviceID := t.serviceID
    nodeID := if isGlobalService service then t.nodeID else "" }

/-- The refusal test at the top of `shouldRestart` (restart.go lines
114-117): `condition != RestartOnAny && (condition != RestartOnFailure ||
t.Status.TerminalState == api.TaskStateCompleted)`. -/
def conditionRefuses (condition : RestartCondition) (t : Task) : Prop :=
  condition ≠ RestartCondition.onAny ∧
    (condition ≠ RestartCondition.onFailure ∨
      t.terminalState = TaskState.completed)

instance (c : RestartCondition) (t : Task) :
    Decidable (conditionRefuses c t) := by
  unfold conditionRefuses; infer_instance

/-- The pruning loop of `shouldRestart` (restart.go lines 152-160): scan
the restart events from the front, removing each one until the first whose
timestamp is strictly after `lookback`. -/
def pruneFront (lookback : Int) : List Int → List Int
  | [] => []
  | ts :: rest => if lookback < ts then ts :: rest else pruneFront lookback rest

/-- `shouldRestart` (restart.go lines 111-169), with the wall clock passed
in as `now`.  Returns the decision together with the ledger as left behind
by the destructive window pruning. -/
def shouldRestart (now : Int) (led : Ledger) (t : Task) (service : Service) :
    Bool × Ledger :=
  let condition := restartCondition service
  if conditionRefuses condition t then
    (false, led)
  else
    match service.restart with
    | Option.none => (true, led)
    | some policy =>
      if policy.maxAttempts = 0 then (true, led)
      else
        let tuple := shouldRestartTuple t service
        match hLookup tuple led.history with
        | Option.none => (true, led)
        | some restartInfo =>
          if policy.window = 0 then
            (restartInfo.totalRestarts < policy.maxAttempts, led)
          else
            match restartInfo.restartedInstances with
            | Option.none => (true, led)
            | some events =>
              let lookback : Int := now - (policy.window : Int)
              let remaining := pruneFront lookback events
              let numRestarts := remaining.length
              let newInfo : InstanceRestartInfo :=
                { restartInfo with
                  restartedInstances :=
                    if numRestarts = 0 then Option.none else some remaining }
              (numRestarts < policy.maxAttempts,
                { led with history := hInsert tuple newInfo led.history })

/-- `recordRestartHistory` (restart.go lines 171-208), with the wall clock
passed in as `now`. -/
def recordRestartHistory (now : Int) (led : Ledger) (restartTask : Task)
    (service : Service) : Ledger :=
  match service.restart with
  | Option.none => led
  | some policy =>
    if policy.maxAttempts = 0 then led
    else
      let tuple : InstanceTuple :=
        { instanceOrd := restartTask.instanceOrd
          serviceID := restartTask.serviceID
          nodeID := restartTask.nodeID }
      let restartInfo :=
        match hLookup tuple led.history with
        | some info => info
        | Option.none =>
            { totalRestarts := 0, restartedInstances := Option.none }
      let restartInfo :=
        { restartInfo with totalRestarts := restartInfo.totalRestarts + 1 }
      let restartInfo :=
        if policy.window ≠ 0 then
          { restartInfo with
            restartedInstances :=
              some ((match restartInfo.restartedInstances with
                     | some evs => evs
                     | Option.none => []) ++ [now]) }
        else restartInfo
      { history := hInsert tuple restartInfo led.history
        historyByService :=
          sIndexInsert restartTask.serviceID tuple led.historyByService }

/-- The reads and injected store outcomes a single `Restart` call sees:
the node record `GetNode(tx, t.NodeID)` returns, and the errors (if any)
the two store writes fail with. -/
structure StoreView where
  node : Option Node
  updateTaskErr : Option String
  createTaskErr : Option String
deriving DecidableEq

/-- The test `n == nil || n.Spec.Availability != api.NodeAvailabilityDrain`
from restart.go line 88. -/
def nodeNilOrNotDrained : Option Node → Bool
  | Option.none => true
  | some node => node.availability ≠ NodeAvailability.drain

/-- The test `n != nil && n.Status.State == api.NodeStatus_DOWN` from
restart.go line 96. -/
def nodeKnownDown : Option Node → Bool
  | Option.none => false
  | some node => node.statusState = NodeState.down

/-- The computation of `restartDelay` inside `Restart` (restart.go lines
86-90): the policy delay applies only when the policy specifies a nonzero
delay and the node, when found, is not drained. -/
def restartDelayOf (service : Service) (n : Option Node) : Nat :=
  match service.restart with
  | Option.none => 0
  | some p =>
      if p.delay ≠ 0 ∧ nodeNilOrNotDrained n = true then p.delay else 0

/-- The computation of `waitStop` inside `Restart` (restart.go lines
92-98): skip waiting when the node is known to be down or the old task is
already past RUNNING. -/
def waitStopOf (t : Task) (n : Option Node) : Bool :=
  if nodeKnownDown n = true ∨ tsLt TaskState.running t.statusState then
    false
  else true

/-- Everything a `Restart` call returns and effects: its error result, the
task written through `UpdateTask`, the replacement created through
`CreateTask`, the ledger it leaves behind, and the `DelayStart` it
enqueued (new task id, delay, waitStop). -/
structure RestartResult where
  err : Option String
  persistedTask : Option Task
  replacement : Option Task
  ledger : Ledger
  delayStarted : Option (String × Nat × Bool)
deriving DecidableEq

/-- `Restart` (restart.go lines 58-109), with the wall clock passed in as
`now` and the fresh task id as `freshID`. -/
def Restart (now : Int) (led : Ledger) (sv : StoreView) (freshID : String)
    (service : Service) (t : Task) : RestartResult :=
  let t1 := { t with desiredState := TaskState.shutdown }
  match sv.updateTaskErr with
  | some e =>
      { err := some e, persistedTask := Option.none,
        replacement := Option.none, ledger := led,
        delayStarted := Option.none }
  | Option.none =>
    let dec := shouldRestart now led t1 service
    if !dec.1 then
      { err := Option.none, persistedTask := some t1,
        replacement := Option.none, ledger := dec.2,
        delayStarted := Option.none }
    else
      let restartTask? : Option Task :=
        if isReplicatedService service then
          some (newTask service t1.instanceOrd freshID)
        else if isGlobalService service then
          some { newTask service 0 freshID with nodeID := t1.nodeID }
        else Option.none
      match restartTask? with
      | Option.none =>
          { err := Option.none, persistedTask := some t1,
            replacement := Option.none, ledger := dec.2,
            delayStarted := Option.none }
      | some rt0 =>
        let n := sv.node
        let restartTask := { rt0 with desiredState := TaskState.ready }
        let restartDelay := restartDelayOf service n
        let waitStop := waitStopOf t1 n
        match sv.createTaskErr with
        | some e =>
            { err := some e, persistedTask := some t1,
              replacement := Option.none, ledger := dec.2,
              delayStarted := Option.none }
        | Option.none =>
            { err := Option.none, persistedTask := some t1,
              replacement := some restartTask,
              ledger := recordRestartHistory now dec.2 restartTask service,
              delayStarted := some (restartTask.id, restartDelay, waitStop) }

/-- Lookup of a task by id in a store snapshot. -/
def storeGetTask (taskID : String) : List (String × Task) → Option Task
  | [] => Option.none
  | (k, v) :: rest => if k = taskID then some v else storeGetTask taskID rest

/-- Result of a `StartNow` call: the returned error and the task written
through `UpdateTask`, when the write happened and succeeded. -/
structure StartNowResult where
  err : Option String
  written : Option Task
deriving DecidableEq

/-- `StartNow` (restart.go lines 317-324): fetch the task; a missing task
or one already past READY is a no-op; otherwise promote it to RUNNING and
return the store write's outcome unchanged. -/
def StartNow (tasks : List (String × Task)) (taskID : String)
    (updateTaskErr : Option String) : StartNowResult :=
  match storeGetTask taskID tasks with
  | Option.none => { err := Option.none, written := Option.none }
  | some t =>
      if tsLt TaskState.ready t.desiredState then
        { err := Option.none, written := Option.none }
      else
        let t' := { t with desiredState := TaskState.running }
        match updateTaskErr with
        | some e => { err := some e, written := Option.none }
        | Option.none => { err := Option.none, written := some t' }

/-- A `delayedStart` handle in the delay registry, with the observable
one-shot flags of its cancel function and done channel. -/
structure DelayHandle where
  cancelRequested : Bool
  done : Bool
deriving DecidableEq

/-- What one `CancelAll` call (restart.go lines 342-354) does, read off
the supervisor state sequentially: which handles it signalled cancel on,
which done channels it blocked on before returning, and the delays
registry as the call itself leaves it.  The `cancelled` slice the source
declares is never appended to, so the wait loop ranges over an empty
list, and `CancelAll` itself removes nothing from the registry. -/
structure CancelAllResult where
  signalled : List String
  awaited : List String
  delays : List (String × DelayHandle)
deriving DecidableEq

/-- `CancelAll` (restart.go lines 342-354). -/
def CancelAll (delays : List (String × DelayHandle)) : CancelAllResult :=
  let cancelled : List (String × DelayHandle) := []
  { signalled := delays.map Prod.fst
    awaited := cancelled.map Prod.fst
    delays := delays.map fun p => (p.1, { p.2 with cancelRequested := true }) }

/-- How a delay loop run ends. -/
inductive LoopEnd where
  | cancelledInDelay
  | cancelledInWait
  | committed
deriving DecidableEq

/-- The asynchronous environment one delay-loop run executes in:
whether the context the CALLER passed to `DelayStart`/`Restart` has been
cancelled, whether the cancel function stored in the delay registry for
this loop has been invoked (by `Cancel`, `CancelAll`, or a superseding
`DelayStart` on the same task id — the only call sites of that function),
and which branch each `select` takes when both are ready. -/
structure LoopEnv where
  callerCtxCancelled : Bool
  handleCancelled : Bool
  delayTimerFirst : Bool
  watchOrTimeoutFirst : Bool
deriving DecidableEq

/-- The delay-loop body spawned by `DelayStart` (restart.go lines
260-310).  Line 217 rebinds `ctx` to a context derived from
`context.Background()`, so the `ctx.Done()` arms of both selects fire
exactly when the registered handle's cancel function has been invoked;
the caller's context does not reach the loop at all. -/
def delayLoop (delay : Nat) (waitStop : Bool) (env : LoopEnv) : LoopEnd :=
  if delay ≠ 0 ∧ env.handleCancelled ∧ ¬env.delayTimerFirst then
    LoopEnd.cancelledInDelay
  else if waitStop ∧ env.handleCancelled ∧ ¬env.watchOrTimeoutFirst then
    LoopEnd.cancelledInWait
  else LoopEnd.committed

/-- The registry discipline of `DelayStart` (restart.go lines 220-235):
signal cancel on any handle already registered for `newTaskID` (then wait
for it to deregister itself), and install a fresh handle.  Returns the new
registry and the ids whose handles were cancelled by the supersede. -/
def delayStartRegister (delays : List (String × DelayHandle))
    (newTaskID : String) : List (String × DelayHandle) × List String :=
  let superseded := delays.filter fun p => p.1 = newTaskID
  let rest := delays.filter fun p => ¬ p.1 = newTaskID
  (rest ++ [(newTaskID, { cancelRequested := false, done := false })],
    superseded.map Prod.fst)

/-! Helper lemmas about the map operations and the pruning loop. -/

theorem hLookup_hInsert (k tu : InstanceTuple) (v : InstanceRestartInfo)
    (l : List (InstanceTuple × InstanceRestartInfo)) :
    hLookup tu (hInsert k v l) = if k = tu then some v else hLookup tu l := by
  induction l with
  | nil => by_cases h : k = tu <;> simp [hInsert, hLookup, h]
  | cons p rest ih =>
    obtain ⟨k', v'⟩ := p
    by_cases hk : k' = k
    · subst hk
      by_cases h : k' = tu <;> simp [hInsert, hLookup, h]
    · by_cases h : k' = tu
      · subst h
        have : ¬ k = k' := fun hh => hk hh.symm
        simp [hInsert, hLookup, hk, this]
      · simp [hInsert, hLookup, hk, h, ih]

theorem pruneFront_split (lb : Int) (l : List Int) :
    ∃ removed, l = removed ++ pruneFront lb l ∧ ∀ e ∈ removed, e ≤ lb := by
  induction l with
  | nil => exact ⟨[], rfl, by simp⟩
  | cons ts rest ih =>
    by_cases h : lb < ts
    · exact ⟨[], by simp [pruneFront, h], by simp⟩
    · obtain ⟨rem, heq, hall⟩ := ih
      refine ⟨ts :: rem, ?_, ?_⟩
      · simpa [pruneFront, h] using heq
      · intro e he
        rcases List.mem_cons.mp he with he | he
        · omega
        · exact hall e he

theorem pruneFront_head (lb : Int) (l : List Int) :
    pruneFront lb l = [] ∨
      ∃ hd tl, pruneFront lb l = hd :: tl ∧ lb < hd := by
  induction l with
  | nil => exact Or.inl rfl
  | cons ts rest ih =>
    by_cases h : lb < ts
    · exact Or.inr ⟨ts, rest, by simp [pruneFront, h], h⟩
    · simpa [pruneFront, h] using ih

theorem pruneFront_idem (lb : Int) (l : List Int) :
    pruneFront lb (pruneFront lb l) = pruneFront lb l := by
  rcases pruneFront_head lb l with h | ⟨hd, tl, heq, hlt⟩
  · rw [h]; rfl
  · rw [heq]; simp [pruneFront, hlt]

/-! Branch-by-branch characterizations of `shouldRestart`. -/

theorem shouldRestart_refused (now : Int) (led : Ledger) (t : Task)
    (s : Service) (hg : conditionRefuses (restartCondition s) t) :
    shouldRestart now led t s = (false, led) := by
  simp [shouldRestart, hg]

theorem shouldRestart_noPolicy (now : Int) (led : Ledger) (t : Task)
    (s : Service) (hg : ¬ conditionRefuses (restartCondition s) t)
    (hp : s.restart = Option.none) :
    shouldRestart now led t s = (true, led) := by
  simp [shouldRestart, hg, hp]

theorem shouldRestart_maxZero (now : Int) (led : Ledger) (t : Task)
    (s : Service) (p : RestartPolicy)
    (hg : ¬ conditionRefuses (restartCondition s) t)
    (hp : s.restart = some p) (hmax : p.maxAttempts = 0) :
    shouldRestart now led t s = (true, led) := by
  simp [shouldRestart, hg, hp, hmax]

theorem shouldRestart_noEntry (now : Int) (led : Ledger) (t : Task)
    (s : Service) (p : RestartPolicy)
    (hg : ¬ conditionRefuses (restartCondition s) t)
    (hp : s.restart = some p) (hmax : p.maxAttempts ≠ 0)
    (hinfo : hLookup (shouldRestartTuple t s) led.history = Option.none) :
    shouldRestart now led t s = (true, led) := by
  simp [shouldRestart, hg, hp, hmax, hinfo]

theorem shouldRestart_windowZero (now : Int) (led : Ledger) (t : Task)
    (s : Service) (p : RestartPolicy) (info : InstanceRestartInfo)
    (hg : ¬ conditionRefuses (restartCondition s) t)
    (hp : s.restart = some p) (hmax : p.maxAttempts ≠ 0)
    (hinfo : hLookup (shouldRestartTuple t s) led.history = some info)
    (hw : p.window = 0) :
    shouldRestart now led t s =
      (decide (info.totalRestarts < p.maxAttempts), led) := by
  simp [shouldRestart, hg, hp, hmax, hinfo, hw]

theorem shouldRestart_nilList (now : Int) (led : Ledger) (t : Task)
    (s : Service) (p : RestartPolicy) (info : InstanceRestartInfo)
    (hg : ¬ conditionRefuses (restartCondition s) t)
    (hp : s.restart = some p) (hmax : p.maxAttempts ≠ 0)
    (hinfo : hLookup (shouldRestartTuple t s) led.history = some info)
    (hw : p.window ≠ 0) (hev : info.restartedInstances = Option.none) :
    shouldRestart now led t s = (true, led) := by
  simp [shouldRestart, hg, hp, hmax, hinfo, hw, hev]

theorem shouldRestart_events (now : Int) (led : Ledger) (t : Task)
    (s : Service) (p : RestartPolicy) (info : InstanceRestartInfo)
    (events : List Int)
    (hg : ¬ conditionRefuses (restartCondition s) t)
    (hp : s.restart = some p) (hmax : p.maxAttempts ≠ 0)
    (hinfo : hLookup (shouldRestartTuple t s) led.history = some info)
    (hw : p.window ≠ 0) (hev : info.restartedInstances = some events) :
    shouldRestart now led t s =
      (decide ((pruneFront (now - (p.window : Int)) events).length
          < p.maxAttempts),
       Ledger.mk
         (hInsert (shouldRestartTuple t s)
           (InstanceRestartInfo.mk info.totalRestarts
             (if (pruneFront (now - (p.window : Int)) events).length = 0
              then Option.none
              else some (pruneFront (now - (p.window : Int)) events)))
           led.history)
         led.historyByService) := by
  simp [shouldRestart, hg, hp, hmax, hinfo, hw, hev]

theorem totalRestartsOf_mk_insert (led : Ledger) (k tu : InstanceTuple)
    (v : InstanceRestartInfo) (idx : List (String × List InstanceTuple)) :
    totalRestartsOf (Ledger.mk (hInsert k v led.history) idx) tu =
      if k = tu then v.totalRestarts else totalRestartsOf led tu := by
  unfold totalRestartsOf
  rw [show (Ledger.mk (hInsert k v led.history) idx).history
        = hInsert k v led.history from rfl]
  rw [hLookup_hInsert]
  by_cases h : k = tu <;> simp [h]

theorem shouldRestart_totalRestarts (now : Int) (led : Ledger) (t : Task)
    (s : Service) (tu : InstanceTuple) :
    totalRestartsOf (shouldRestart now led t s).2 tu = totalRestartsOf led tu := by
  by_cases hg : conditionRefuses (restartCondition s) t
  · rw [shouldRestart_refused now led t s hg]
  · cases hp : s.restart with
    | none => rw [shouldRestart_noPolicy now led t s hg hp]
    | some p =>
      by_cases hmax : p.maxAttempts = 0
      · rw [shouldRestart_maxZero now led t s p hg hp hmax]
      · cases hinfo : hLookup (shouldRestartTuple t s) led.history with
        | none => rw [shouldRestart_noEntry now led t s p hg hp hmax hinfo]
        | some info =>
          by_cases hw : p.window = 0
          · rw [shouldRestart_windowZero now led t s p info hg hp hmax hinfo hw]
          · cases hev : info.restartedInstances with
            | none =>
                rw [shouldRestart_nilList now led t s p info hg hp hmax hinfo hw hev]
            | some events =>
                rw [shouldRestart_events now led t s p info events hg hp hmax
                  hinfo hw hev]
                rw [totalRestartsOf_mk_insert]
                by_cases h : shouldRestartTuple t s = tu
                · subst h
                  simp [totalRestartsOf, hinfo]
                · simp [h]

theorem pruneFront_cons_of_lt (lb : Int) (hd : Int) (tl : List Int)
    (h : lb < hd) : pruneFront lb (hd :: tl) = hd :: tl := by
  simp [pruneFront, h]

/-! Concrete fixtures used by the witnesses and counterexamples. -/

def wPolicy : RestartPolicy :=
  { condition := RestartCondition.onAny, delay := 7, maxAttempts := 2,
    window := 10 }

def wService : Service :=
  { id := "svc", mode := ServiceMode.replicated, restart := some wPolicy }

def wTask : Task :=
  { id := "t1", serviceID := "svc", instanceOrd := 3, nodeID := "n1",
    desiredState := TaskState.running, statusState := TaskState.failed,
    terminalState := TaskState.failed }

def wTuple : InstanceTuple :=
  { instanceOrd := 3, serviceID := "svc", nodeID := "" }

def wInfo : InstanceRestartInfo :=
  { totalRestarts := 1, restartedInstances := some [80, 95] }

def wLedger : Ledger :=
  { history := [(wTuple, wInfo)], historyByService := [("svc", [wTuple])] }

def wStoreView : StoreView :=
  { node := Option.none, updateTaskErr := Option.none,
    createTaskErr := Option.none }

/-! The claims. -/

/-- C2: `shouldRestart` refuses when the restart condition is NONE, and
when it is ON_FAILURE with terminal state COMPLETED; when the condition
permits a restart it allows whenever the service has no restart policy or
`max_attempts == 0`, and also whenever the ledger has no entry for the
task's instance tuple. -/
theorem c2_policy_gate :
    (∀ (now : Int) (led : Ledger) (t : Task) (s : Service),
        restartCondition s = RestartCondition.onNone →
        (shouldRestart now led t s).1 = false) ∧
    (∀ (now : Int) (led : Ledger) (t : Task) (s : Service),
        restartCondition s = RestartCondition.onFailure →
        t.terminalState = TaskState.completed →
        (shouldRestart now led t s).1 = false) ∧
    (∀ (now : Int) (led : Ledger) (t : Task) (s : Service),
        ¬ conditionRefuses (restartCondition s) t →
        (s.restart = Option.none ∨
          ∃ p, s.restart = some p ∧ p.maxAttempts = 0) →
        (shouldRestart now led t s).1 = true) ∧
    (∀ (now : Int) (led : Ledger) (t : Task) (s : Service),
        ¬ conditionRefuses (restartCondition s) t →
        hLookup (shouldRestartTuple t s) led.history = Option.none →
        (shouldRestart now led t s).1 = true) := by
  refine ⟨?_, ?_, ?_, ?_⟩
  · intro now led t s hc
    have hg : conditionRefuses (restartCondition s) t := by
      rw [hc]; exact ⟨by simp, Or.inl (by simp)⟩
    rw [shouldRestart_refused now led t s hg]
  · intro now led t s hc hterm
    have hg : conditionRefuses (restartCondition s) t := by
      rw [hc]; exact ⟨by simp, Or.inr hterm⟩
    rw [shouldRestart_refused now led t s hg]
  · intro now led t s hg h
    rcases h with h | ⟨p, hp, hmax⟩
    · rw [shouldRestart_noPolicy now led t s hg h]
    · rw [shouldRestart_maxZero now led t s p hg hp hmax]
  · intro now led t s hg hinfo
    cases hp : s.restart with
    | none => rw [shouldRestart_noPolicy now led t s hg hp]
    | some p =>
      by_cases hmax : p.maxAttempts = 0
      · rw [shouldRestart_maxZero now led t s p hg hp hmax]
      · rw [shouldRestart_noEntry now led t s p hg hp hmax hinfo]

def c2ServiceNone : Service :=
  { id := "svc", mode := ServiceMode.replicated,
    restart := some { condition := RestartCondition.onNone, delay := 0,
                      maxAttempts := 2, window := 10 } }

def c2ServiceOnFailure : Service :=
  { id := "svc", mode := ServiceMode.replicated,
    restart := some { condition := RestartCondition.onFailure, delay := 0,
                      maxAttempts := 2, window := 10 } }

def c2TaskCompleted : Task :=
  { wTask with terminalState := TaskState.completed }

def c2ServiceNoPolicy : Service :=
  { id := "svc", mode := ServiceMode.replicated, restart := Option.none }

theorem c2_policy_gate_witness :
    (shouldRestart 100 wLedger wTask c2ServiceNone).1 = false ∧
    (shouldRestart 100 wLedger c2TaskCompleted c2ServiceOnFailure).1 = false ∧
    (shouldRestart 100 wLedger wTask c2ServiceNoPolicy).1 = true ∧
    (shouldRestart 100 (Ledger.mk [] []) wTask wService).1 = true := by
  refine ⟨?_, ?_, ?_, ?_⟩
  · exact c2_policy_gate.1 100 wLedger wTask c2ServiceNone (by decide)
  · exact c2_policy_gate.2.1 100 wLedger c2TaskCompleted c2ServiceOnFailure
      (by decide) (by decide)
  · exact c2_policy_gate.2.2.1 100 wLedger wTask c2ServiceNoPolicy
      (by decide) (Or.inl (by decide))
  · exact c2_policy_gate.2.2.2 100 (Ledger.mk [] []) wTask wService
      (by decide) (by decide)

def c3Registry : List (String × DelayHandle) :=
  [("task1", { cancelRequested := false, done := false })]

/-- C3: evaluating `CancelAll` as written. It signals cancel on every
registered handle, but the local `cancelled` slice it then waits on is
never populated, so it awaits no done channel at all and leaves the
registry entries in place (their removal is done asynchronously by each
delay loop's own teardown), contradicting both the claim and the
function's own doc comment. -/
theorem c3_cancelAll_bug :
    (∀ delays : List (String × DelayHandle),
        (CancelAll delays).signalled = delays.map Prod.fst ∧
        (CancelAll delays).awaited = [] ∧
        (CancelAll delays).delays.length = delays.length) ∧
    (CancelAll c3Registry).signalled = ["task1"] ∧
    (CancelAll c3Registry).awaited = [] ∧
    (CancelAll c3Registry).delays ≠ [] := by
  refine ⟨fun delays => ⟨rfl, rfl, by simp [CancelAll]⟩, ?_, ?_, ?_⟩ <;> decide

/-- C8: `StartNow` is a no-op returning success when the task is absent
or its desired state is already past READY; otherwise it promotes the
task's desired state to RUNNING, persists it, and returns the store
write's outcome unchanged. -/
theorem c8_start_now :
    (∀ (tasks : List (String × Task)) (taskID : String)
        (uerr : Option String),
        storeGetTask taskID tasks = Option.none →
        StartNow tasks taskID uerr =
          StartNowResult.mk Option.none Option.none) ∧
    (∀ (tasks : List (String × Task)) (taskID : String)
        (uerr : Option String) (t : Task),
        storeGetTask taskID tasks = some t →
        tsLt TaskState.ready t.desiredState →
        StartNow tasks taskID uerr =
          StartNowResult.mk Option.none Option.none) ∧
    (∀ (tasks : List (String × Task)) (taskID : String)
        (uerr : Option String) (t : Task),
        storeGetTask taskID tasks = some t →
        ¬ tsLt TaskState.ready t.desiredState →
        (StartNow tasks taskID uerr).err = uerr ∧
        (uerr = Option.none →
          (StartNow tasks taskID uerr).written =
            some { t with desiredState := TaskState.running })) := by
  refine ⟨?_, ?_, ?_⟩
  · intro tasks taskID uerr h
    simp [StartNow, h]
  · intro tasks taskID uerr t h hlt
    simp [StartNow, h, hlt]
  · intro tasks taskID uerr t h hlt
    cases uerr with
    | none => simp [StartNow, h, hlt]
    | some e => simp [StartNow, h, hlt]

def c8Task : Task := { wTask with desiredState := TaskState.ready }

theorem c8_start_now_witness :
    StartNow [] "absent" Option.none =
      StartNowResult.mk Option.none Option.none ∧
    StartNow [("t1", wTask)] "t1" Option.none =
      StartNowResult.mk Option.none Option.none ∧
    (StartNow [("t1", c8Task)] "t1" (some "boom")).err = some "boom" ∧
    (StartNow [("t1", c8Task)] "t1" Option.none).written =
      some { c8Task with desiredState := TaskState.running } := by
  refine ⟨?_, ?_, ?_, ?_⟩
  · exact c8_start_now.1 [] "absent" Option.none (by decide)
  · exact c8_start_now.2.1 [("t1", wTask)] "t1" Option.none wTask
      (by decide) (by decide)
  · exact (c8_start_now.2.2 [("t1", c8Task)] "t1" (some "boom") c8Task
      (by decide) (by decide)).1
  · exact (c8_start_now.2.2 [("t1", c8Task)] "t1" Option.none c8Task
      (by decide) (by decide)).2 rfl

/-- C9: consulting `shouldRestart` twice with the same task, service and
clock gives the same decision both times, and leaves every tuple's
`totalRestarts` untouched, even though the first call may have
destructively pruned expired window events. -/
theorem c9_should_restart_idempotent :
    ∀ (now : Int) (led : Ledger) (t : Task) (s : Service),
      (shouldRestart now (shouldRestart now led t s).2 t s).1 =
        (shouldRestart now led t s).1 ∧
      ∀ tu : InstanceTuple,
        totalRestartsOf (shouldRestart now (shouldRestart now led t s).2 t s).2 tu
          = totalRestartsOf led tu := by
  intro now led t s
  constructor
  · by_cases hg : conditionRefuses (restartCondition s) t
    · simp [shouldRestart_refused now _ t s hg]
    · cases hp : s.restart with
      | none => simp [shouldRestart_noPolicy now _ t s hg hp]
      | some p =>
        by_cases hmax : p.maxAttempts = 0
        · simp [shouldRestart_maxZero now _ t s p hg hp hmax]
        · cases hinfo : hLookup (shouldRestartTuple t s) led.history with
          | none => simp [shouldRestart_noEntry now _ t s p hg hp hmax hinfo]
          | some info =>
            by_cases hw : p.window = 0
            · simp [shouldRestart_windowZero now _ t s p info hg hp hmax
                hinfo hw]
            · cases hev : info.restartedInstances with
              | none =>
                  simp [shouldRestart_nilList now _ t s p info hg hp hmax
                    hinfo hw hev]
              | some events =>
                rw [shouldRestart_events now led t s p info events hg hp hmax
                  hinfo hw hev]
                have hinfo2 : hLookup (shouldRestartTuple t s)
                    (Ledger.mk
                      (hInsert (shouldRestartTuple t s)
                        (InstanceRestartInfo.mk info.totalRestarts
                          (if (pruneFront (now - (p.window : Int)) events).length = 0
                           then Option.none
                           else some (pruneFront (now - (p.window : Int)) events)))
                        led.history)
                      led.historyByService).history =
                    some (InstanceRestartInfo.mk info.totalRestarts
                      (if (pruneFront (now - (p.window : Int)) events).length = 0
                       then Option.none
                       else some (pruneFront (now - (p.window : Int)) events))) := by
                  rw [show (Ledger.mk
                      (hInsert (shouldRestartTuple t s) _ led.history)
                      led.historyByService).history =
                      hInsert (shouldRestartTuple t s) _ led.history from rfl]
                  rw [hLookup_hInsert]
                  simp
                rcases pruneFront_head (now - (p.window : Int)) events with
                  hempty | ⟨hd, tl, heq, hlt⟩
                · have hif : (if (pruneFront (now - (p.window : Int)) events).length = 0
                      then Option.none
                      else some (pruneFront (now - (p.window : Int)) events)) =
                      (Option.none : Option (List Int)) := by
                    rw [hempty]; simp
                  rw [hif] at hinfo2 ⊢
                  rw [shouldRestart_nilList now _ t s p
                    (InstanceRestartInfo.mk info.totalRestarts Option.none)
                    hg hp hmax hinfo2 hw rfl]
                  simp [hempty, Nat.pos_of_ne_zero hmax]
                · have hif : (if (pruneFront (now - (p.window : Int)) events).length = 0
                      then Option.none
                      else some (pruneFront (now - (p.window : Int)) events)) =
                      some (hd :: tl) := by
                    rw [heq]; simp
                  rw [hif] at hinfo2 ⊢
                  rw [shouldRestart_events now _ t s p
                    (InstanceRestartInfo.mk info.totalRestarts (some (hd :: tl)))
                    (hd :: tl) hg hp hmax hinfo2 hw rfl]
                  simp [pruneFront_cons_of_lt _ _ _ hlt, heq]
  · intro tu
    rw [shouldRestart_totalRestarts, shouldRestart_totalRestarts]

/-- C10: the delay loop's cancellation context is derived from
`context.Background()` (restart.go line 217), not from the caller's `ctx`:
the loop's behavior is independent of whether the caller's context is
cancelled, it always reaches the `StartNow` commit when the registered
handle's cancel function was never invoked, it can only be stopped short
of the commit by that cancel function, and a superseding `DelayStart`
signals that cancel function exactly for the handles registered under the
same new task id. -/
theorem c10_caller_ctx_noninterference :
    (∀ (delay : Nat) (waitStop : Bool) (env : LoopEnv) (b : Bool),
        delayLoop delay waitStop { env with callerCtxCancelled := b } =
          delayLoop delay waitStop env) ∧
    (∀ (delay : Nat) (waitStop : Bool) (env : LoopEnv),
        env.handleCancelled = false →
        delayLoop delay waitStop env = LoopEnd.committed) ∧
    (∀ (delay : Nat) (waitStop : Bool) (env : LoopEnv),
        delayLoop delay waitStop env ≠ LoopEnd.committed →
        env.handleCancelled = true) ∧
    (∀ (delays : List (String × DelayHandle)) (newTaskID id : String),
        id ∈ (delayStartRegister delays newTaskID).2 ↔
          id = newTaskID ∧ ∃ h, (id, h) ∈ delays) := by
  refine ⟨?_, ?_, ?_, ?_⟩
  · intro delay waitStop env b
    rfl
  · intro delay waitStop env h
    simp [delayLoop, h]
  · intro delay waitStop env h
    by_contra hb
    have : env.handleCancelled = false := by
      cases hcase : env.handleCancelled
      · rfl
      · exact absurd hcase hb
    exact h (by simp [delayLoop, this])
  · intro delays newTaskID id
    unfold delayStartRegister
    simp only [List.map_map, List.mem_map, List.mem_filter]
    constructor
    · rintro ⟨⟨pid, ph⟩, ⟨hmem, hdec⟩, rfl⟩
      exact ⟨by simpa using hdec, ph, hmem⟩
    · rintro ⟨rfl, h, hmem⟩
      exact ⟨(id, h), ⟨hmem, by simp⟩, rfl⟩

theorem c10_caller_ctx_witness :
    delayLoop 5 true (LoopEnv.mk true true true true) =
      delayLoop 5 true (LoopEnv.mk false true true true) ∧
    delayLoop 5 true (LoopEnv.mk true false false false) =
      LoopEnd.committed ∧
    ("t2" ∈ (delayStartRegister [("t2", DelayHandle.mk false false)] "t2").2
      ↔ "t2" = "t2" ∧ ∃ h, ("t2", h) ∈ [("t2", DelayHandle.mk false false)]) := by
  refine ⟨?_, ?_, ?_⟩
  · exact c10_caller_ctx_noninterference.1 5 true
      (LoopEnv.mk false true true true) true
  · exact c10_caller_ctx_noninterference.2.1 5 true
      (LoopEnv.mk true false false false) rfl
  · exact c10_caller_ctx_noninterference.2.2.2
      [("t2", DelayHandle.mk false false)] "t2" "t2"

theorem windowEvents_mk_insert (led : Ledger) (k tu : InstanceTuple)
    (v : InstanceRestartInfo) (idx : List (String × List InstanceTuple)) :
    windowEvents (Ledger.mk (hInsert k v led.history) idx) tu =
      if k = tu then
        (match v.restartedInstances with
         | some evs => evs
         | Option.none => [])
      else windowEvents led tu := by
  unfold windowEvents
  rw [show (Ledger.mk (hInsert k v led.history) idx).history
        = hInsert k v led.history from rfl]
  rw [hLookup_hInsert]
  by_cases h : k = tu <;> simp [h]

def c1Policy : RestartPolicy :=
  { condition := RestartCondition.onNone, delay := 0, maxAttempts := 2,
    window := 10 }

def c1Service : Service :=
  { id := "svc", mode := ServiceMode.replicated, restart := some c1Policy }

/-- C1 counterexample: a service whose restart policy has condition NONE,
`max_attempts = 2 > 0` and `window = 10 > 0`, with a ledger entry whose
window-events list is `[80, 95]`.  At `now = 100` the pruned list would
hold one event, strictly fewer than `max_attempts`, so the claim says
`should_restart` returns true; the code instead refuses at the condition
gate and returns false without touching the ledger. -/
theorem c1_counterexample :
    c1Service.restart = some c1Policy ∧ 0 < c1Policy.maxAttempts ∧
    0 < c1Policy.window ∧
    hLookup (shouldRestartTuple wTask c1Service) wLedger.history
      = some wInfo ∧
    wInfo.restartedInstances = some [80, 95] ∧
    (pruneFront ((100 : Int) - (c1Policy.window : Int)) [80, 95]).length
      < c1Policy.maxAttempts ∧
    shouldRestart 100 wLedger wTask c1Service = (false, wLedger) := by
  decide

/-- C1 (amended): for every task and service with a restart policy where
`max_attempts > 0` and `window > 0`, a ledger entry with a window-events
list for the task's instance tuple, PROVIDED the restart condition does
not refuse the task (it is not NONE, nor ON_FAILURE with terminal state
COMPLETED), `should_restart` removes from the front of the window events
every event at or before `now − window` (the scan stopping at the first
event strictly after the threshold) and returns true iff the remaining
count is `< max_attempts`; with `window == 0` it instead returns true iff
`total_restarts < max_attempts`. -/
theorem c1_window_pruning :
    (∀ (now : Int) (led : Ledger) (t : Task) (s : Service)
        (p : RestartPolicy) (info : InstanceRestartInfo) (events : List Int),
        ¬ conditionRefuses (restartCondition s) t →
        s.restart = some p → 0 < p.maxAttempts → 0 < p.window →
        hLookup (shouldRestartTuple t s) led.history = some info →
        info.restartedInstances = some events →
        (∃ removed,
          events = removed ++
            windowEvents (shouldRestart now led t s).2
              (shouldRestartTuple t s) ∧
          ∀ e ∈ removed, e ≤ now - (p.window : Int)) ∧
        (∀ hd tl,
          windowEvents (shouldRestart now led t s).2 (shouldRestartTuple t s)
            = hd :: tl → now - (p.window : Int) < hd) ∧
        ((shouldRestart now led t s).1 = true ↔
          (windowEvents (shouldRestart now led t s).2
            (shouldRestartTuple t s)).length < p.maxAttempts)) ∧
    (∀ (now : Int) (led : Ledger) (t : Task) (s : Service)
        (p : RestartPolicy) (info : InstanceRestartInfo),
        ¬ conditionRefuses (restartCondition s) t →
        s.restart = some p → 0 < p.maxAttempts → p.window = 0 →
        hLookup (shouldRestartTuple t s) led.history = some info →
        ((shouldRestart now led t s).1 = true ↔
          info.totalRestarts < p.maxAttempts)) := by
  constructor
  · intro now led t s p info events hg hp hmax hwin hinfo hev
    have hmax' : p.maxAttempts ≠ 0 := Nat.pos_iff_ne_zero.mp hmax
    have hw : p.window ≠ 0 := Nat.pos_iff_ne_zero.mp hwin
    have hSR := shouldRestart_events now led t s p info events hg hp hmax'
      hinfo hw hev
    have hwev : windowEvents (shouldRestart now led t s).2
        (shouldRestartTuple t s) = pruneFront (now - (p.window : Int)) events := by
      rw [hSR]
      by_cases hlen : (pruneFront (now - (p.window : Int)) events).length = 0
      · have hnil : pruneFront (now - (p.window : Int)) events = [] :=
          List.length_eq_zero.mp hlen
        simp [windowEvents_mk_insert, hlen, hnil]
      · simp [windowEvents_mk_insert, hlen]
    refine ⟨?_, ?_, ?_⟩
    · rw [hwev]
      exact pruneFront_split (now - (p.window : Int)) events
    · intro hd tl hcons
      rw [hwev] at hcons
      rcases pruneFront_head (now - (p.window : Int)) events with
        hempty | ⟨hd', tl', heq, hlt⟩
      · rw [hempty] at hcons; cases hcons
      · rw [heq] at hcons
        injection hcons with h1 _
        rw [← h1]; exact hlt
    · rw [hwev, hSR]
      simp
  · intro now led t s p info hg hp hmax hw hinfo
    have hmax' : p.maxAttempts ≠ 0 := Nat.pos_iff_ne_zero.mp hmax
    rw [shouldRestart_windowZero now led t s p info hg hp hmax' hinfo hw]
    simp

def c1LifetimeService : Service :=
  { id := "svc", mode := ServiceMode.replicated,
    restart := some { condition := RestartCondition.onAny, delay := 0,
                      maxAttempts := 2, window := 0 } }

theorem c1_window_pruning_witness :
    ((∃ removed, ([80, 95] : List Int) = removed ++
        windowEvents (shouldRestart 100 wLedger wTask wService).2
          (shouldRestartTuple wTask wService) ∧
        ∀ e ∈ removed, e ≤ (100 : Int) - ((10 : Nat) : Int)) ∧
      (∀ hd tl,
        windowEvents (shouldRestart 100 wLedger wTask wService).2
          (shouldRestartTuple wTask wService) = hd :: tl →
        (100 : Int) - ((10 : Nat) : Int) < hd) ∧
      ((shouldRestart 100 wLedger wTask wService).1 = true ↔
        (windowEvents (shouldRestart 100 wLedger wTask wService).2
          (shouldRestartTuple wTask wService)).length < 2)) ∧
    ((shouldRestart 100 wLedger wTask c1LifetimeService).1 = true ↔
      1 < 2) := by
  constructor
  · exact c1_window_pruning.1 100 wLedger wTask wService wPolicy wInfo
      [80, 95] (by decide) rfl (by decide) (by decide) (by decide) rfl
  · exact c1_window_pruning.2 100 wLedger wTask c1LifetimeService
      { condition := RestartCondition.onAny, delay := 0, maxAttempts := 2,
        window := 0 } wInfo (by decide) rfl (by decide) rfl (by decide)

/-- C4: `Restart` first marks the failing task for SHUTDOWN and persists
it; a store failure there is returned unchanged with nothing else done,
and a `shouldRestart` refusal yields success with no replacement, no
ledger accounting, and no delay registered (the ledger is exactly what
the `shouldRestart` consult itself left, with every restart counter
unchanged). -/
theorem c4_restart_early_exits :
    (∀ (now : Int) (led : Ledger) (sv : StoreView) (freshID : String)
        (s : Service) (t : Task) (e : String),
        sv.updateTaskErr = some e →
        Restart now led sv freshID s t =
          RestartResult.mk (some e) Option.none Option.none led
            Option.none) ∧
    (∀ (now : Int) (led : Ledger) (sv : StoreView) (freshID : String)
        (s : Service) (t : Task),
        sv.updateTaskErr = Option.none →
        (shouldRestart now led { t with desiredState := TaskState.shutdown }
          s).1 = false →
        Restart now led sv freshID s t =
          RestartResult.mk Option.none
            (some { t with desiredState := TaskState.shutdown })
            Option.none
            (shouldRestart now led
              { t with desiredState := TaskState.shutdown } s).2
            Option.none ∧
        ∀ tu, totalRestartsOf (Restart now led sv freshID s t).ledger tu =
          totalRestartsOf led tu) := by
  constructor
  · intro now led sv freshID s t e h
    simp [Restart, h]
  · intro now led sv freshID s t hupd hdec
    have hmain : Restart now led sv freshID s t =
        RestartResult.mk Option.none
          (some { t with desiredState := TaskState.shutdown })
          Option.none
          (shouldRestart now led
            { t with desiredState := TaskState.shutdown } s).2
          Option.none := by
      simp [Restart, hupd, hdec]
    refine ⟨hmain, ?_⟩
    intro tu
    rw [hmain]
    exact shouldRestart_totalRestarts now led _ s tu

def c4ErrView : StoreView :=
  { node := Option.none, updateTaskErr := some "boom",
    createTaskErr := Option.none }

theorem c4_restart_early_exits_witness :
    Restart 100 wLedger c4ErrView "fresh" wService wTask =
      RestartResult.mk (some "boom") Option.none Option.none wLedger
        Option.none ∧
    Restart 100 wLedger wStoreView "fresh" c2ServiceNone wTask =
      RestartResult.mk Option.none
        (some { wTask with desiredState := TaskState.shutdown })
        Option.none wLedger Option.none ∧
    totalRestartsOf
      (Restart 100 wLedger wStoreView "fresh" c2ServiceNone wTask).ledger
      wTuple = totalRestartsOf wLedger wTuple := by
  refine ⟨?_, ?_, ?_⟩
  · exact c4_restart_early_exits.1 100 wLedger c4ErrView "fresh" wService
      wTask "boom" rfl
  · exact (c4_restart_early_exits.2 100 wLedger wStoreView "fresh"
      c2ServiceNone wTask rfl (by decide)).1
  · exact (c4_restart_early_exits.2 100 wLedger wStoreView "fresh"
      c2ServiceNone wTask rfl (by decide)).2 wTuple

/-- C5: the replacement `Restart` creates carries the old task's instance
ordinal and no node assignment for a REPLICATED service, instance 0 and
the old task's node for a GLOBAL service, in both cases with desired
state READY at creation; for any other service mode no replacement is
created and `Restart` returns success. -/
theorem c5_replacement_shape :
    ∀ (now : Int) (led : Ledger) (sv : StoreView) (freshID : String)
        (s : Service) (t : Task),
      sv.updateTaskErr = Option.none →
      (shouldRestart now led { t with desiredState := TaskState.shutdown }
        s).1 = true →
      ((s.mode = ServiceMode.replicated → sv.createTaskErr = Option.none →
          ∃ rt, (Restart now led sv freshID s t).replacement = some rt ∧
            rt.instanceOrd = t.instanceOrd ∧ rt.nodeID = "" ∧
            rt.desiredState = TaskState.ready) ∧
       (s.mode = ServiceMode.globalMode → sv.createTaskErr = Option.none →
          ∃ rt, (Restart now led sv freshID s t).replacement = some rt ∧
            rt.instanceOrd = 0 ∧ rt.nodeID = t.nodeID ∧
            rt.desiredState = TaskState.ready) ∧
       (s.mode = ServiceMode.other →
          (Restart now led sv freshID s t).replacement = Option.none ∧
          (Restart now led sv freshID s t).err = Option.none ∧
          (Restart now led sv freshID s t).delayStarted = Option.none)) := by
  intro now led sv freshID s t hupd hdec
  refine ⟨?_, ?_, ?_⟩
  · intro hmode hcre
    refine ⟨Task.mk freshID s.id t.instanceOrd "" TaskState.ready
      TaskState.new TaskState.new, ?_, rfl, rfl, rfl⟩
    simp [Restart, hupd, hdec, hcre, isReplicatedService, hmode, newTask]
  · intro hmode hcre
    refine ⟨Task.mk freshID s.id 0 t.nodeID TaskState.ready
      TaskState.new TaskState.new, ?_, rfl, rfl, rfl⟩
    simp [Restart, hupd, hdec, hcre, isReplicatedService, isGlobalService,
      hmode, newTask]
  · intro hmode
    refine ⟨?_, ?_, ?_⟩ <;>
      simp [Restart, hupd, hdec, isReplicatedService, isGlobalService, hmode]

def c5GlobalService : Service :=
  { id := "svc", mode := ServiceMode.globalMode, restart := some wPolicy }

def c5GlobalTask : Task := { wTask with instanceOrd := 0 }

def c5OtherService : Service :=
  { id := "svc", mode := ServiceMode.other, restart := some wPolicy }

theorem c5_replacement_shape_witness :
    (∃ rt, (Restart 100 wLedger wStoreView "fresh" wService
        wTask).replacement = some rt ∧
      rt.instanceOrd = wTask.instanceOrd ∧ rt.nodeID = "" ∧
      rt.desiredState = TaskState.ready) ∧
    (∃ rt, (Restart 100 wLedger wStoreView "fresh" c5GlobalService
        c5GlobalTask).replacement = some rt ∧
      rt.instanceOrd = 0 ∧ rt.nodeID = c5GlobalTask.nodeID ∧
      rt.desiredState = TaskState.ready) ∧
    ((Restart 100 wLedger wStoreView "fresh" c5OtherService
        wTask).replacement = Option.none ∧
     (Restart 100 wLedger wStoreView "fresh" c5OtherService wTask).err =
        Option.none ∧
     (Restart 100 wLedger wStoreView "fresh" c5OtherService
        wTask).delayStarted = Option.none) := by
  refine ⟨?_, ?_, ?_⟩
  · exact (c5_replacement_shape 100 wLedger wStoreView "fresh" wService
      wTask rfl (by decide)).1 rfl rfl
  · exact (c5_replacement_shape 100 wLedger wStoreView "fresh"
      c5GlobalService c5GlobalTask rfl (by decide)).2.1 rfl rfl
  · exact (c5_replacement_shape 100 wLedger wStoreView "fresh"
      c5OtherService wTask rfl (by decide)).2.2 rfl

theorem nodeNilOrNotDrained_iff (n : Option Node) :
    nodeNilOrNotDrained n = true ↔
      (n = Option.none ∨
        ∃ node, n = some node ∧
          node.availability ≠ NodeAvailability.drain) := by
  cases n <;> simp [nodeNilOrNotDrained]

theorem nodeKnownDown_iff (n : Option Node) :
    nodeKnownDown n = true ↔
      ∃ node, n = some node ∧ node.statusState = NodeState.down := by
  cases n <;> simp [nodeKnownDown]

theorem waitStopOf_false_iff (t : Task) (n : Option Node) :
    waitStopOf t n = false ↔
      (nodeKnownDown n = true ∨ tsLt TaskState.running t.statusState) := by
  unfold waitStopOf
  by_cases h : nodeKnownDown n = true ∨ tsLt TaskState.running t.statusState
    <;> simp [h]

/-- C6: when `Restart` creates a replacement, the delay it hands to
`DelayStart` is the policy delay exactly under the conditions of the
source's test (a policy with a nonzero delay, and a node that is absent
or not DRAIN-ed) and 0 otherwise, and the `waitStop` flag is false
exactly when the node is known DOWN or the old task's observed state is
past RUNNING. -/
theorem c6_delay_and_waitstop :
    ∀ (now : Int) (led : Ledger) (sv : StoreView) (freshID : String)
        (s : Service) (t : Task),
      sv.updateTaskErr = Option.none → sv.createTaskErr = Option.none →
      (shouldRestart now led { t with desiredState := TaskState.shutdown }
        s).1 = true →
      s.mode ≠ ServiceMode.other →
      ∃ id, (Restart now led sv freshID s t).delayStarted =
          some (id, restartDelayOf s sv.node,
            waitStopOf { t with desiredState := TaskState.shutdown }
              sv.node) ∧
        ((∃ p, s.restart = some p ∧ restartDelayOf s sv.node = p.delay ∧
            p.delay ≠ 0 ∧
            (sv.node = Option.none ∨
              ∃ node, sv.node = some node ∧
                node.availability ≠ NodeAvailability.drain)) ∨
         (restartDelayOf s sv.node = 0 ∧
          ¬ ∃ p, s.restart = some p ∧ p.delay ≠ 0 ∧
              (sv.node = Option.none ∨
                ∃ node, sv.node = some node ∧
                  node.availability ≠ NodeAvailability.drain))) ∧
        (waitStopOf { t with desiredState := TaskState.shutdown } sv.node
            = false ↔
          ((∃ node, sv.node = some node ∧
              node.statusState = NodeState.down) ∨
            tsLt TaskState.running t.statusState)) := by
  intro now led sv freshID s t hupd hcre hdec hmode
  have hdelay : (∃ p, s.restart = some p ∧
      restartDelayOf s sv.node = p.delay ∧ p.delay ≠ 0 ∧
      (sv.node = Option.none ∨
        ∃ node, sv.node = some node ∧
          node.availability ≠ NodeAvailability.drain)) ∨
      (restartDelayOf s sv.node = 0 ∧
       ¬ ∃ p, s.restart = some p ∧ p.delay ≠ 0 ∧
          (sv.node = Option.none ∨
            ∃ node, sv.node = some node ∧
              node.availability ≠ NodeAvailability.drain)) := by
    cases hp : s.restart with
    | none =>
        refine Or.inr ⟨by simp [restartDelayOf, hp], ?_⟩
        rintro ⟨p, hp', -, -⟩
        simp at hp'
    | some p =>
        by_cases hc : p.delay ≠ 0 ∧ nodeNilOrNotDrained sv.node = true
        · exact Or.inl ⟨p, rfl, by simp [restartDelayOf, hp, hc], hc.1,
            (nodeNilOrNotDrained_iff sv.node).mp hc.2⟩
        · refine Or.inr ⟨by simp [restartDelayOf, hp, hc], ?_⟩
          rintro ⟨p', hp', hd', hn'⟩
          injection hp' with hp'
          subst hp'
          exact hc ⟨hd', (nodeNilOrNotDrained_iff sv.node).mpr hn'⟩
  have hwait : waitStopOf { t with desiredState := TaskState.shutdown }
      sv.node = false ↔
      ((∃ node, sv.node = some node ∧
          node.statusState = NodeState.down) ∨
        tsLt TaskState.running t.statusState) := by
    rw [waitStopOf_false_iff, nodeKnownDown_iff]
  cases hmodecase : s.mode with
  | other => exact absurd hmodecase hmode
  | replicated =>
      refine ⟨freshID, ?_, hdelay, hwait⟩
      simp [Restart, hupd, hdec, hcre, isReplicatedService, hmodecase,
        newTask]
  | globalMode =>
      refine ⟨freshID, ?_, hdelay, hwait⟩
      simp [Restart, hupd, hdec, hcre, isReplicatedService, isGlobalService,
        hmodecase, newTask]

theorem c6_delay_and_waitstop_witness :
    ∃ id, (Restart 100 wLedger wStoreView "fresh" wService
        wTask).delayStarted =
      some (id, restartDelayOf wService wStoreView.node,
        waitStopOf { wTask with desiredState := TaskState.shutdown }
          wStoreView.node) ∧
      ((∃ p, wService.restart = some p ∧
          restartDelayOf wService wStoreView.node = p.delay ∧ p.delay ≠ 0 ∧
          (wStoreView.node = Option.none ∨
            ∃ node, wStoreView.node = some node ∧
              node.availability ≠ NodeAvailability.drain)) ∨
       (restartDelayOf wService wStoreView.node = 0 ∧
        ¬ ∃ p, wService.restart = some p ∧ p.delay ≠ 0 ∧
            (wStoreView.node = Option.none ∨
              ∃ node, wStoreView.node = some node ∧
                node.availability ≠ NodeAvailability.drain))) ∧
      (waitStopOf { wTask with desiredState := TaskState.shutdown }
          wStoreView.node = false ↔
        ((∃ node, wStoreView.node = some node ∧
            node.statusState = NodeState.down) ∨
          tsLt TaskState.running wTask.statusState)) := by
  exact c6_delay_and_waitstop 100 wLedger wStoreView "fresh" wService wTask
    rfl rfl (by decide) (by decide)

/-- N-fold iteration of `Restart` with a fixed clock, store view, service
and failing task, threading the supervisor's ledger through. -/
def restartIter (now : Int) (sv : StoreView) (freshID : String)
    (s : Service) (t : Task) : Nat → Ledger → Ledger
  | 0, led => led
  | Nat.succ n, led =>
      (Restart now (restartIter now sv freshID s t n led) sv freshID s t).ledger

/-- The instance tuple a replicated service's restarts are accounted
under: the task's ordinal, the service id, and a zero-valued node id. -/
def c7Tuple (t : Task) (s : Service) : InstanceTuple :=
  InstanceTuple.mk t.instanceOrd s.id ""

/-- The ledger after `k` recorded restarts of one replicated instance,
all stamped at time `now`, starting from an empty ledger. -/
def ledgerAt (now : Int) (p : RestartPolicy) (tu : InstanceTuple) :
    Nat → Ledger
  | 0 => Ledger.mk [] []
  | Nat.succ k =>
      Ledger.mk
        [(tu, InstanceRestartInfo.mk (k + 1)
          (if p.window = 0 then Option.none
           else some (List.replicate (k + 1) now)))]
        [(tu.serviceID, [tu])]

theorem sLookup_sIndexInsert (sid : String) (tu : InstanceTuple)
    (idx : List (String × List InstanceTuple)) :
    ∃ tus, sLookup sid (sIndexInsert sid tu idx) = some tus ∧ tu ∈ tus := by
  induction idx with
  | nil => exact ⟨[tu], by simp [sIndexInsert, sLookup], by simp⟩
  | cons q rest ih =>
      obtain ⟨k, v⟩ := q
      by_cases h : k = sid
      · subst h
        refine ⟨tupleSetAdd tu v, by simp [sIndexInsert, sLookup], ?_⟩
        unfold tupleSetAdd
        by_cases hm : tu ∈ v <;> simp [hm]
      · obtain ⟨tus, h1, h2⟩ := ih
        exact ⟨tus, by simp [sIndexInsert, sLookup, h, h1], h2⟩

theorem c7_step (now : Int) (sv : StoreView) (freshID : String)
    (s : Service) (t : Task) (p : RestartPolicy)
    (hmode : s.mode = ServiceMode.replicated) (hp : s.restart = some p)
    (hcond : p.condition = RestartCondition.onAny)
    (hmax : p.maxAttempts ≠ 0) (hupd : sv.updateTaskErr = Option.none)
    (hcre : sv.createTaskErr = Option.none) (hsid : t.serviceID = s.id)
    (k : Nat) (hk : k < p.maxAttempts) :
    (Restart now (ledgerAt now p (c7Tuple t s) k) sv freshID s t).ledger =
      ledgerAt now p (c7Tuple t s) (k + 1) := by
  have hg : ¬ conditionRefuses (restartCondition s)
      { t with desiredState := TaskState.shutdown } := by
    simp [conditionRefuses, restartCondition, hp, hcond]
  have htuple : shouldRestartTuple
      { t with desiredState := TaskState.shutdown } s = c7Tuple t s := by
    simp [shouldRestartTuple, isGlobalService, hmode, hsid, c7Tuple]
  have hdec : shouldRestart now (ledgerAt now p (c7Tuple t s) k)
      { t with desiredState := TaskState.shutdown } s =
      (true, ledgerAt now p (c7Tuple t s) k) := by
    cases k with
    | zero =>
        have hlook : hLookup (shouldRestartTuple
            { t with desiredState := TaskState.shutdown } s)
            (ledgerAt now p (c7Tuple t s) 0).history = Option.none := by
          rw [htuple]; rfl
        exact shouldRestart_noEntry now _ _ s p hg hp hmax hlook
    | succ j =>
        by_cases hwz : p.window = 0
        · have hlook : hLookup (shouldRestartTuple
              { t with desiredState := TaskState.shutdown } s)
              (ledgerAt now p (c7Tuple t s) (j + 1)).history =
              some (InstanceRestartInfo.mk (j + 1) Option.none) := by
            rw [htuple]; simp [ledgerAt, hLookup, hwz]
          rw [shouldRestart_windowZero now _ _ s p _ hg hp hmax hlook hwz]
          simp only [Prod.mk.injEq, decide_eq_true_eq]
          exact ⟨hk, trivial⟩
        · have hlook : hLookup (shouldRestartTuple
              { t with desiredState := TaskState.shutdown } s)
              (ledgerAt now p (c7Tuple t s) (j + 1)).history =
              some (InstanceRestartInfo.mk (j + 1)
                (some (List.replicate (j + 1) now))) := by
            rw [htuple]; simp [ledgerAt, hLookup, hwz]
          have hwpos : (0 : Int) < (p.window : Int) := by
            exact_mod_cast Nat.pos_of_ne_zero hwz
          have hlt : now - (p.window : Int) < now := by omega
          have hpr : pruneFront (now - (p.window : Int))
              (List.replicate (j + 1) now) = List.replicate (j + 1) now := by
            rw [List.replicate_succ]
            exact pruneFront_cons_of_lt _ _ _ hlt
          rw [shouldRestart_events now _ _ s p
            (InstanceRestartInfo.mk (j + 1) (some (List.replicate (j + 1) now)))
            (List.replicate (j + 1) now) hg hp hmax hlook hwz rfl]
          rw [htuple, hpr]
          have hlen : (List.replicate (j + 1) now).length = j + 1 := by simp
          simp [ledgerAt, hInsert, hwz, hk, hlen]
  have hrestart : (Restart now (ledgerAt now p (c7Tuple t s) k) sv freshID
      s t).ledger =
      recordRestartHistory now (ledgerAt now p (c7Tuple t s) k)
        (Task.mk freshID s.id t.instanceOrd "" TaskState.ready
          TaskState.new TaskState.new) s := by
    simp [Restart, hupd, hdec, isReplicatedService, hmode, hcre, newTask]
  rw [hrestart]
  cases k with
  | zero =>
      by_cases hwz : p.window = 0 <;>
        simp [recordRestartHistory, hp, hmax, ledgerAt, hLookup, hInsert,
          sIndexInsert, tupleSetAdd, c7Tuple, hwz]
  | succ j =>
      by_cases hwz : p.window = 0
      · simp [recordRestartHistory, hp, hmax, ledgerAt, hLookup, hInsert,
          sIndexInsert, tupleSetAdd, c7Tuple, hwz]
      · simp [recordRestartHistory, hp, hmax, ledgerAt, hLookup, hInsert,
          sIndexInsert, tupleSetAdd, c7Tuple, hwz, ← List.replicate_succ']

/-- C7: `recordRestartHistory` is a no-op without a restart policy or
with `max_attempts == 0`; otherwise it increments the tuple's
`total_restarts` (lazily creating the record), indexes the tuple under
its service id, appends the clock to the window events exactly when
`window > 0`, and leaves them untouched when `window == 0`; consequently,
starting from an empty ledger, N restarting `Restart` calls for the same
replicated instance with `max_attempts > 0` (N within the attempt bound)
leave `total_restarts = N` and, when `window > 0`, exactly N window
events. -/
theorem c7_record_accounting :
    (∀ (now : Int) (led : Ledger) (rt : Task) (s : Service),
        (s.restart = Option.none ∨
          ∃ p, s.restart = some p ∧ p.maxAttempts = 0) →
        recordRestartHistory now led rt s = led) ∧
    (∀ (now : Int) (led : Ledger) (rt : Task) (s : Service)
        (p : RestartPolicy),
        s.restart = some p → p.maxAttempts ≠ 0 →
        totalRestartsOf (recordRestartHistory now led rt s)
            (InstanceTuple.mk rt.instanceOrd rt.serviceID rt.nodeID) =
          totalRestartsOf led
            (InstanceTuple.mk rt.instanceOrd rt.serviceID rt.nodeID) + 1 ∧
        (∃ tus, sLookup rt.serviceID
            (recordRestartHistory now led rt s).historyByService =
            some tus ∧
          InstanceTuple.mk rt.instanceOrd rt.serviceID rt.nodeID ∈ tus) ∧
        (p.window ≠ 0 →
          windowEvents (recordRestartHistory now led rt s)
              (InstanceTuple.mk rt.instanceOrd rt.serviceID rt.nodeID) =
            windowEvents led
              (InstanceTuple.mk rt.instanceOrd rt.serviceID rt.nodeID)
              ++ [now]) ∧
        (p.window = 0 →
          windowEvents (recordRestartHistory now led rt s)
              (InstanceTuple.mk rt.instanceOrd rt.serviceID rt.nodeID) =
            windowEvents led
              (InstanceTuple.mk rt.instanceOrd rt.serviceID rt.nodeID))) ∧
    (∀ (now : Int) (sv : StoreView) (freshID : String) (s : Service)
        (t : Task) (p : RestartPolicy) (N : Nat),
        s.mode = ServiceMode.replicated → s.restart = some p →
        p.condition = RestartCondition.onAny → p.maxAttempts ≠ 0 →
        sv.updateTaskErr = Option.none → sv.createTaskErr = Option.none →
        t.serviceID = s.id → N ≤ p.maxAttempts →
        totalRestartsOf (restartIter now sv freshID s t N (Ledger.mk [] []))
            (c7Tuple t s) = N ∧
        (p.window ≠ 0 →
          (windowEvents (restartIter now sv freshID s t N (Ledger.mk [] []))
            (c7Tuple t s)).length = N)) := by
  refine ⟨?_, ?_, ?_⟩
  · intro now led rt s h
    rcases h with h | ⟨p, hp, hmax⟩
    · simp [recordRestartHistory, h]
    · simp [recordRestartHistory, hp, hmax]
  · intro now led rt s p hp hmax
    refine ⟨?_, ?_, ?_, ?_⟩
    · cases hlook : hLookup
          (InstanceTuple.mk rt.instanceOrd rt.serviceID rt.nodeID)
          led.history with
      | none =>
          by_cases hwz : p.window = 0 <;>
            simp [recordRestartHistory, hp, hmax, hlook, hwz,
              totalRestartsOf, hLookup_hInsert]
      | some info =>
          by_cases hwz : p.window = 0 <;>
            simp [recordRestartHistory, hp, hmax, hlook, hwz,
              totalRestartsOf, hLookup_hInsert]
    · have h := sLookup_sIndexInsert rt.serviceID
        (InstanceTuple.mk rt.instanceOrd rt.serviceID rt.nodeID)
        led.historyByService
      by_cases hwz : p.window = 0 <;>
        simpa [recordRestartHistory, hp, hmax, hwz] using h
    · intro hwz
      cases hlook : hLookup
          (InstanceTuple.mk rt.instanceOrd rt.serviceID rt.nodeID)
          led.history with
      | none =>
          simp [recordRestartHistory, hp, hmax, hlook, hwz,
            windowEvents, hLookup_hInsert]
      | some info =>
          cases hev : info.restartedInstances with
          | none =>
              simp [recordRestartHistory, hp, hmax, hlook, hwz, hev,
                windowEvents, hLookup_hInsert]
          | some evs =>
              simp [recordRestartHistory, hp, hmax, hlook, hwz, hev,
                windowEvents, hLookup_hInsert]
    · intro hwz
      cases hlook : hLookup
          (InstanceTuple.mk rt.instanceOrd rt.serviceID rt.nodeID)
          led.history with
      | none =>
          simp [recordRestartHistory, hp, hmax, hlook, hwz,
            windowEvents, hLookup_hInsert]
      | some info =>
          simp [recordRestartHistory, hp, hmax, hlook, hwz,
            windowEvents, hLookup_hInsert]
  · intro now sv freshID s t p N hmode hp hcond hmax hupd hcre hsid hN
    have hledger : ∀ k, k ≤ p.maxAttempts →
        restartIter now sv freshID s t k (Ledger.mk [] []) =
          ledgerAt now p (c7Tuple t s) k := by
      intro k
      induction k with
      | zero => intro _; rfl
      | succ j ih =>
          intro hj
          have hstep := c7_step now sv freshID s t p hmode hp hcond hmax
            hupd hcre hsid j (Nat.lt_of_succ_le hj)
          calc restartIter now sv freshID s t (j + 1) (Ledger.mk [] [])
              = (Restart now (restartIter now sv freshID s t j
                  (Ledger.mk [] [])) sv freshID s t).ledger := rfl
            _ = (Restart now (ledgerAt now p (c7Tuple t s) j) sv freshID
                  s t).ledger := by rw [ih (Nat.le_of_succ_le hj)]
            _ = ledgerAt now p (c7Tuple t s) (j + 1) := hstep
    rw [hledger N hN]
    cases N with
    | zero => simp [ledgerAt, totalRestartsOf, windowEvents, hLookup]
    | succ m =>
        constructor
        · simp [ledgerAt, totalRestartsOf, hLookup]
        · intro hwz
          simp [ledgerAt, windowEvents, hLookup, hwz]

theorem c7_record_accounting_witness :
    recordRestartHistory 100 wLedger wTask c2ServiceNoPolicy = wLedger ∧
    totalRestartsOf (recordRestartHistory 100 wLedger wTask wService)
        (InstanceTuple.mk wTask.instanceOrd wTask.serviceID wTask.nodeID) =
      totalRestartsOf wLedger
        (InstanceTuple.mk wTask.instanceOrd wTask.serviceID wTask.nodeID)
        + 1 ∧
    totalRestartsOf
        (restartIter 100 wStoreView "fresh" wService wTask 2
          (Ledger.mk [] [])) (c7Tuple wTask wService) = 2 ∧
    ((10 : Nat) ≠ 0 →
      (windowEvents
        (restartIter 100 wStoreView "fresh" wService wTask 2
          (Ledger.mk [] [])) (c7Tuple wTask wService)).length = 2) := by
  refine ⟨?_, ?_, ?_, ?_⟩
  · exact c7_record_accounting.1 100 wLedger wTask c2ServiceNoPolicy
      (Or.inl rfl)
  · exact (c7_record_accounting.2.1 100 wLedger wTask wService wPolicy rfl
      (by decide)).1
  · exact (c7_record_accounting.2.2 100 wStoreView "fresh" wService wTask
      wPolicy 2 rfl rfl rfl (by decide) rfl rfl rfl (by decide)).1
  · exact (c7_record_accounting.2.2 100 wStoreView "fresh" wService wTask
      wPolicy 2 rfl rfl rfl (by decide) rfl rfl rfl (by decide)).2

end RestartSup
